import Mathlib

/-!
Stunnel server transport provisioning.

A shallow embedding of `state_transfer/transport/stunnel/server.go`:
the server-side provisioning of a stunnel tunnel (a rendered `stunnel.conf`
stored in a ConfigMap, a certificate pair stored in a Secret, and the container
and volume descriptors that bind both into the proxy pod).

External collaborators are explicit: the object store client and the
certificate issuer are parameters, every call made to them is logged, and the
package constants declared outside `server.go` are fields of `Env`.
-/

set_option linter.dupNamespace false
set_option maxRecDepth 100000

namespace Stunnel

/-! ## Go values -/

/-- Contents of a Go `[]byte` / `bytes.Buffer`. -/
abbrev Bytes := List Nat

/-- Go `error` values, one constructor per error kind of the provisioning path. -/
inductive Error where
  | TemplateError (msg : String)
  | RenderError (msg : String)
  | CertGenError (msg : String)
  | StoreCreateConflict
  | StoreUnavailable (msg : String)
  | StoreNotFound
  deriving DecidableEq, Repr

/-- Go `strconv.Itoa`: the decimal text of an integer, `-` first when negative. -/
def Itoa (i : Int) : String :=
  if i < 0 then "-" ++ Nat.repr i.natAbs else Nat.repr i.toNat

/-! ## The fragment of `text/template` used by the configuration template

Text and actions of the form `$.key` between the delimiters; any other action
is reported as a parse error. The data is a Go `map[string]string`. -/

namespace Template

/-- Parsed template nodes: literal text, or the field `key` of the root data. -/
inductive Node where
  | text (s : List Char)
  | field (key : List Char)
  deriving DecidableEq, Repr

/-- White space inside an action. -/
def isSpace (c : Char) : Bool :=
  c == ' ' || c == '\t' || c == '\r' || c == '\n'

/-- Characters of an identifier. -/
def isAlphaNumeric (c : Char) : Bool :=
  c == '_' || c.isAlpha || c.isDigit

/-- Strip white space on both sides of an action body. -/
def trimSpace (cs : List Char) : List Char :=
  ((cs.dropWhile isSpace).reverse.dropWhile isSpace).reverse

/-- Parse the body of one action: only `$.key` is in the fragment. -/
def parseAction (body : List Char) : Except Error Node :=
  match trimSpace body with
  | '$' :: '.' :: key =>
    if key ≠ [] ∧ key.all isAlphaNumeric = true then .ok (.field key)
    else .error (.TemplateError "bad field name")
  | _ => .error (.TemplateError "unsupported action")

/-- Lexer state: in literal text, after one opening brace in text, inside an
action, after one closing brace inside an action. -/
inductive Mode where
  | text
  | open1
  | action
  | close1
  deriving DecidableEq, Repr

/-- Close the literal text collected so far (reversed in `acc`) in front of `ns`. -/
def emitText (acc : List Char) (ns : List Node) : List Node :=
  if acc = [] then ns else .text acc.reverse :: ns

/-- Scan the template one character at a time; `acc` holds the characters of the
current piece, reversed. The left delimiter is two opening braces, the right
delimiter two closing braces. -/
def scan : Mode → List Char → List Char → Except Error (List Node)
  | .text, acc, [] => .ok (emitText acc [])
  | .open1, acc, [] => .ok (emitText ('\x7b' :: acc) [])
  | .action, _, [] => .error (.TemplateError "unclosed action")
  | .close1, _, [] => .error (.TemplateError "unclosed action")
  | .text, acc, c :: rest =>
    if c = '\x7b' then scan .open1 acc rest else scan .text (c :: acc) rest
  | .open1, acc, c :: rest =>
    if c = '\x7b' then
      match scan .action [] rest with
      | .ok ns => .ok (emitText acc ns)
      | .error err => .error err
    else scan .text (c :: '\x7b' :: acc) rest
  | .action, acc, c :: rest =>
    if c = '\x7d' then scan .close1 acc rest else scan .action (c :: acc) rest
  | .close1, acc, c :: rest =>
    if c = '\x7d' then
      match parseAction acc.reverse with
      | .ok n =>
        match scan .text [] rest with
        | .ok ns => .ok (n :: ns)
        | .error err => .error err
      | .error err => .error err
    else scan .action (c :: '\x7d' :: acc) rest

/-- Go `template.New(name).Parse(text)`. -/
def Parse (text : String) : Except Error (List Node) :=
  scan .text [] text.data

/-- Evaluate one node against the data map; a missing key prints `<no value>`. -/
def evalNode (data : List (String × String)) : Node → String
  | .text s => String.mk s
  | .field key =>
    match data.lookup (String.mk key) with
    | some v => v
    | none => "<no value>"

/-- Go `(*Template).Execute` into a buffer, for a `map[string]string`. -/
def Execute (tmpl : List Node) (data : List (String × String)) : Except Error String :=
  .ok (tmpl.foldl (fun out n => out ++ evalNode data n) "")

end Template

/-- The configuration template of `server.go`. -/
def stunnelServerConfTemplate : String :=
  "foreground = yes\npid =\nsocket = l:TCP_NODELAY=1\nsocket = r:TCP_NODELAY=1\ndebug = 7\nsslVersion = TLSv1.2\n[rsync]\naccept = \x7b\x7b $.stunnelPort \x7d\x7d\nconnect = \x7b\x7b $.transferPort \x7d\x7d\nkey = /etc/stunnel/certs/tls.key\ncert = /etc/stunnel/certs/tls.crt\nTIMEOUTclose = 0\n"

/-! ## Kubernetes objects (the fields `server.go` sets or reads) -/

/-- Go `types.NamespacedName`. -/
structure NamespacedName where
  Namespace : String
  Name : String
  deriving DecidableEq, Repr

/-- Go `metav1.ObjectMeta`. -/
structure ObjectMeta where
  Namespace : String
  Name : String
  Labels : List (String × String)
  deriving DecidableEq, Repr

/-- Go `corev1.ConfigMap`; `Data` is a `map[string]string`. -/
structure ConfigMap where
  ObjectMeta : ObjectMeta
  Data : List (String × String)
  deriving DecidableEq, Repr

/-- Go `corev1.Secret`; `Data` is a `map[string][]byte`. -/
structure Secret where
  ObjectMeta : ObjectMeta
  Data : List (String × Bytes)
  deriving DecidableEq, Repr

/-- The zero value `&corev1.ConfigMap{}`. -/
def ConfigMap.zero : ConfigMap := ⟨⟨"", "", []⟩, []⟩

/-- The zero value `&corev1.Secret{}`. -/
def Secret.zero : Secret := ⟨⟨"", "", []⟩, []⟩

/-- Go `corev1.ContainerPort`. -/
structure ContainerPort where
  Name : String
  Protocol : String
  ContainerPort : Int
  deriving DecidableEq, Repr

/-- Go `corev1.VolumeMount`; an unset `SubPath` is the empty string. -/
structure VolumeMount where
  Name : String
  MountPath : String
  SubPath : String
  deriving DecidableEq, Repr

/-- Go `corev1.Container`. -/
structure Container where
  Name : String
  Image : String
  Command : List String
  Ports : List ContainerPort
  VolumeMounts : List VolumeMount
  deriving DecidableEq, Repr

/-- Go `corev1.KeyToPath`. -/
structure KeyToPath where
  Key : String
  Path : String
  deriving DecidableEq, Repr

/-- Go `corev1.LocalObjectReference`. -/
structure LocalObjectReference where
  Name : String
  deriving DecidableEq, Repr

/-- Go `corev1.ConfigMapVolumeSource`. -/
structure ConfigMapVolumeSource where
  LocalObjectReference : LocalObjectReference
  deriving DecidableEq, Repr

/-- Go `corev1.SecretVolumeSource`. -/
structure SecretVolumeSource where
  SecretName : String
  Items : List KeyToPath
  deriving DecidableEq, Repr

/-- Go `corev1.VolumeSource`: a nil pointer is `none`. -/
structure VolumeSource where
  ConfigMap : Option ConfigMapVolumeSource
  Secret : Option SecretVolumeSource
  deriving DecidableEq, Repr

/-- Go `corev1.Volume`. -/
structure Volume where
  Name : String
  VolumeSource : VolumeSource
  deriving DecidableEq, Repr

/-- Go `corev1.ProtocolTCP`. -/
def ProtocolTCP : String := "TCP"

/-! ## Collaborators -/

/-- Go `endpoint.Endpoint`, through the three methods `server.go` calls:
`NamespacedName()`, `Labels()` and `Port()` (an `int32`). -/
structure Endpoint where
  NamespacedName : NamespacedName
  Labels : List (String × String)
  Port : Int
  deriving DecidableEq, Repr

/-- An object handed to the store: a ConfigMap or a Secret. -/
inductive Object where
  | configMap (cm : ConfigMap)
  | secret (sec : Secret)
  deriving DecidableEq, Repr

/-- Kind of a stored object. -/
inductive Kind where
  | ConfigMap
  | Secret
  deriving DecidableEq, Repr

/-- Key of an object in the store: kind, namespace, name. -/
def Object.key : Object → Kind × String × String
  | .configMap cm => (.ConfigMap, cm.ObjectMeta.Namespace, cm.ObjectMeta.Name)
  | .secret sec => (.Secret, sec.ObjectMeta.Namespace, sec.ObjectMeta.Name)

/-- Go `client.Client`, through the two methods `server.go` calls, over a store
state `σ`. `Create` returns the error (nil is `none`) and the next store state;
`Get` fills the object passed in (`into`) and returns it with the error. -/
structure Client (σ : Type) where
  Create : σ → Object → Option Error × σ
  GetConfigMap : σ → NamespacedName → ConfigMap → ConfigMap × Option Error
  GetSecret : σ → NamespacedName → Secret → Secret × Option Error

/-- Modelled from the spec: the result of `transport.GenerateSSLCert`, declared
outside `server.go`: `issue() -> (intermediate, certificate, privateKey) | Error`.
On failure the three buffers are nil. -/
inductive CertResult where
  | issued (ca crt key : Bytes)
  | failed (err : Error)
  deriving DecidableEq, Repr

/-- The package: the constants `stunnelPort`, `stunnelImage`,
`stunnelConfigPrefix` and `stunnelSecretPrefix` (declared outside `server.go`)
and the certificate issuer, which draws on an entropy state `ρ`. -/
structure Env (ρ : Type) where
  stunnelPort : Int
  stunnelImage : String
  stunnelConfigPrefix : String
  stunnelSecretPrefix : String
  GenerateSSLCert : ρ → CertResult × ρ

/-- A call made to a collaborator. -/
inductive Call where
  | Create (obj : Object)
  | Get (kind : Kind) (key : NamespacedName)
  | GenerateSSLCert
  deriving DecidableEq, Repr

/-- Everything outside the transport: the store, the issuer's entropy, and the
log of the calls made so far, oldest first. -/
structure World (σ ρ : Type) where
  store : σ
  rng : ρ
  calls : List Call

/-- Go `StunnelTransport`, with the fields `server.go` writes; `crt` and `key`
are `*bytes.Buffer`, nil is `none`. -/
structure StunnelTransport where
  crt : Option Bytes
  key : Option Bytes
  port : Int
  serverContainers : List Container
  serverVolumes : List Volume
  deriving DecidableEq, Repr

/-- Go `(*StunnelTransport).Crt`. -/
def StunnelTransport.Crt (s : StunnelTransport) : Option Bytes := s.crt

/-- Go `(*StunnelTransport).Key`. -/
def StunnelTransport.Key (s : StunnelTransport) : Option Bytes := s.key

/-- Go `(*bytes.Buffer).Bytes`; the receiver is never nil where `server.go`
calls it (the issuer has succeeded). -/
def bufferBytes : Option Bytes → Bytes
  | some b => b
  | none => []

/-- The call `c.Create(ctx, obj, opts)`, logged. -/
def World.Create {σ ρ : Type} (c : Client σ) (w : World σ ρ) (obj : Object) :
    Option Error × World σ ρ :=
  ((c.Create w.store obj).1,
   { store := (c.Create w.store obj).2, rng := w.rng, calls := w.calls ++ [.Create obj] })

/-! ## `server.go` -/

/-- The object literal of `createStunnelServerConfig`. -/
def stunnelConfigMap {ρ : Type} (env : Env ρ) (e : Endpoint) (stunnelConf : String) : ConfigMap :=
  { ObjectMeta :=
      { Namespace := e.NamespacedName.Namespace,
        Name := env.stunnelConfigPrefix ++ e.NamespacedName.Name,
        Labels := e.Labels },
    Data := [("stunnel.conf", stunnelConf)] }

/-- The template steps of `createStunnelServerConfig`: build the `ports` map,
parse `stunnelServerConfTemplate`, execute it into a buffer. -/
def renderStunnelConf (stunnelPort transferPort : Int) : Except Error String :=
  let ports := [("stunnelPort", Itoa stunnelPort), ("transferPort", Itoa transferPort)]
  match Template.Parse stunnelServerConfTemplate with
  | .error err => .error err
  | .ok stunnelConfTemplate => Template.Execute stunnelConfTemplate ports

/-- Go `createStunnelServerConfig`. -/
def createStunnelServerConfig {σ ρ : Type} (env : Env ρ) (c : Client σ) (w : World σ ρ)
    (e : Endpoint) : Option Error × World σ ρ :=
  match renderStunnelConf env.stunnelPort e.Port with
  | .error err => (some err, w)
  | .ok stunnelConf => w.Create c (.configMap (stunnelConfigMap env e stunnelConf))

/-- Go `getServerConfig`. -/
def getServerConfig {σ ρ : Type} (env : Env ρ) (c : Client σ) (w : World σ ρ)
    (obj : NamespacedName) : (ConfigMap × Option Error) × World σ ρ :=
  let key : NamespacedName :=
    { Namespace := obj.Namespace, Name := env.stunnelConfigPrefix ++ obj.Name }
  (c.GetConfigMap w.store key ConfigMap.zero,
   { store := w.store, rng := w.rng, calls := w.calls ++ [.Get .ConfigMap key] })

/-- The object literal of `createStunnelServerSecret`. -/
def stunnelSecret {ρ : Type} (env : Env ρ) (s : StunnelTransport) (e : Endpoint) : Secret :=
  { ObjectMeta :=
      { Namespace := e.NamespacedName.Namespace,
        Name := env.stunnelSecretPrefix ++ e.NamespacedName.Name,
        Labels := e.Labels },
    Data := [("tls.crt", bufferBytes s.Crt), ("tls.key", bufferBytes s.Key)] }

/-- Go `createStunnelServerSecret`. -/
def createStunnelServerSecret {σ ρ : Type} (env : Env ρ) (c : Client σ) (w : World σ ρ)
    (s : StunnelTransport) (e : Endpoint) : Option Error × StunnelTransport × World σ ρ :=
  let w1 : World σ ρ :=
    { store := w.store, rng := (env.GenerateSSLCert w.rng).2,
      calls := w.calls ++ [.GenerateSSLCert] }
  match (env.GenerateSSLCert w.rng).1 with
  | .failed err => (some err, { s with key := none, crt := none }, w1)
  | .issued _ crt key =>
    let s1 : StunnelTransport := { s with key := some key, crt := some crt }
    ((w1.Create c (.secret (stunnelSecret env s1 e))).1, s1,
     (w1.Create c (.secret (stunnelSecret env s1 e))).2)

/-- Go `getServerSecret`. -/
def getServerSecret {σ ρ : Type} (env : Env ρ) (c : Client σ) (w : World σ ρ)
    (obj : NamespacedName) : (Secret × Option Error) × World σ ρ :=
  let key : NamespacedName :=
    { Namespace := obj.Namespace, Name := env.stunnelSecretPrefix ++ obj.Name }
  (c.GetSecret w.store key Secret.zero,
   { store := w.store, rng := w.rng, calls := w.calls ++ [.Get .Secret key] })

/-- Go `createStunnelServerContainers`. -/
def createStunnelServerContainers {ρ : Type} (env : Env ρ) (s : StunnelTransport)
    (obj : NamespacedName) : StunnelTransport :=
  { s with
    serverContainers :=
      [{ Name := "stunnel",
         Image := env.stunnelImage,
         Command := ["/bin/stunnel", "/etc/stunnel/stunnel.conf"],
         Ports := [{ Name := "stunnel", Protocol := ProtocolTCP, ContainerPort := env.stunnelPort }],
         VolumeMounts :=
           [{ Name := env.stunnelConfigPrefix ++ obj.Name,
              MountPath := "/etc/stunnel/stunnel.conf",
              SubPath := "stunnel.conf" },
            { Name := env.stunnelSecretPrefix ++ obj.Name,
              MountPath := "/etc/stunnel/certs",
              SubPath := "" }] }] }

/-- Go `createStunnelServerVolumes`. -/
def createStunnelServerVolumes {ρ : Type} (env : Env ρ) (s : StunnelTransport)
    (obj : NamespacedName) : StunnelTransport :=
  { s with
    serverVolumes :=
      [{ Name := env.stunnelConfigPrefix ++ obj.Name,
         VolumeSource :=
           { ConfigMap := some { LocalObjectReference := { Name := env.stunnelConfigPrefix ++ obj.Name } },
             Secret := none } },
       { Name := env.stunnelSecretPrefix ++ obj.Name,
         VolumeSource :=
           { ConfigMap := none,
             Secret := some
               { SecretName := env.stunnelSecretPrefix ++ obj.Name,
                 Items := [{ Key := "tls.crt", Path := "tls.crt" },
                           { Key := "tls.key", Path := "tls.key" }] } } }] }

/-- Go `createStunnelServerResources`. -/
def createStunnelServerResources {σ ρ : Type} (env : Env ρ) (c : Client σ) (w : World σ ρ)
    (s : StunnelTransport) (e : Endpoint) : Option Error × StunnelTransport × World σ ρ :=
  let s0 : StunnelTransport := { s with port := env.stunnelPort }
  match createStunnelServerConfig env c w e with
  | (some err, w1) => (some err, s0, w1)
  | (none, w1) =>
    match createStunnelServerSecret env c w1 s0 e with
    | (some err, s1, w2) => (some err, s1, w2)
    | (none, s1, w2) =>
      let s2 := createStunnelServerContainers env s1 e.NamespacedName
      let s3 := createStunnelServerVolumes env s2 e.NamespacedName
      (none, s3, w2)

/-- Go `(*StunnelTransport).CreateServer`. -/
def CreateServer {σ ρ : Type} (env : Env ρ) (c : Client σ) (w : World σ ρ)
    (s : StunnelTransport) (e : Endpoint) : Option Error × StunnelTransport × World σ ρ :=
  createStunnelServerResources env c w s e

/-! ## A create-only store -/

/-- State of the create-only store: the objects of each kind, newest first, and
the scripted outcomes of the coming `Create` calls (`some err`: the store is
unreachable for that call). -/
structure Store where
  configMaps : List ConfigMap
  secrets : List Secret
  faults : List (Option Error)
  deriving DecidableEq, Repr

/-- Does the metadata carry this namespace and name? -/
def ObjectMeta.hasKey (m : ObjectMeta) (ns name : String) : Bool :=
  decide (m.Namespace = ns) && decide (m.Name = name)

/-- Insert an object unless one of the same kind, namespace and name exists. -/
def Store.insert (st : Store) : Object → Option Error × Store
  | .configMap cm =>
    if st.configMaps.any (fun x => x.ObjectMeta.hasKey cm.ObjectMeta.Namespace cm.ObjectMeta.Name)
    then (some .StoreCreateConflict, st)
    else (none, { st with configMaps := cm :: st.configMaps })
  | .secret sec =>
    if st.secrets.any (fun x => x.ObjectMeta.hasKey sec.ObjectMeta.Namespace sec.ObjectMeta.Name)
    then (some .StoreCreateConflict, st)
    else (none, { st with secrets := sec :: st.secrets })

/-- Modelled from the spec: the object store collaborator, a create-only map
keyed by (kind, namespace, name). `Create` fails when the store is unreachable
for this call or when the name already exists (no overwrite); `Get` fetches by
namespaced name and fails with StoreNotFound when the artifact does not exist. -/
def mapClient : Client Store where
  Create st obj :=
    match st.faults with
    | some err :: rest => (some err, { st with faults := rest })
    | none :: rest => Store.insert { st with faults := rest } obj
    | [] => Store.insert st obj
  GetConfigMap st key into :=
    match st.configMaps.find? (fun x => x.ObjectMeta.hasKey key.Namespace key.Name) with
    | some cm => (cm, none)
    | none => (into, some .StoreNotFound)
  GetSecret st key into :=
    match st.secrets.find? (fun x => x.ObjectMeta.hasKey key.Namespace key.Name) with
    | some sec => (sec, none)
    | none => (into, some .StoreNotFound)

/-! ## Observations used in the statements -/

/-- Number of invocations of the certificate issuer in a call log. -/
def issuerCalls (calls : List Call) : Nat :=
  calls.count .GenerateSSLCert

/-- Is this call a `Get` on the store? -/
def Call.isGet : Call → Bool
  | .Get _ _ => true
  | _ => false

/-- Is this call a `Create` of a Secret? -/
def Call.isSecretCreate : Call → Bool
  | .Create (.secret _) => true
  | _ => false

/-- The lines of a text: the pieces between newline characters. -/
def splitLines : List Char → List (List Char)
  | [] => [[]]
  | c :: cs =>
    if c = '\n' then [] :: splitLines cs
    else
      match splitLines cs with
      | [] => [[c]]
      | l :: ls => (c :: l) :: ls

/-- The value on a line of the form `name = value`, if the line has that form. -/
def optionLine (name : String) (l : List Char) : Option String :=
  if (name ++ " = ").data.isPrefixOf l then some (String.mk (l.drop (name ++ " = ").data.length))
  else none

/-- The values a stunnel configuration text gives to the option `name`, one for
each line `name = value`, in order. -/
def confOption (name : String) (text : String) : List String :=
  (splitLines text.data).filterMap (optionLine name)

/-- Skeleton of the template: the text before the first substitution point. -/
def confHead : String :=
  "foreground = yes\npid =\nsocket = l:TCP_NODELAY=1\nsocket = r:TCP_NODELAY=1\ndebug = 7\nsslVersion = TLSv1.2\n[rsync]\naccept = "

/-- Skeleton of the template: the text between the two substitution points. -/
def confMiddle : String := "\nconnect = "

/-- Skeleton of the template: the text after the second substitution point. -/
def confTail : String :=
  "\nkey = /etc/stunnel/certs/tls.key\ncert = /etc/stunnel/certs/tls.crt\nTIMEOUTclose = 0\n"

/-- The skeleton filled with the decimal strings of the two ports. -/
def filledConf (acceptPort connectPort : Int) : String :=
  confHead ++ Itoa acceptPort ++ confMiddle ++ Itoa connectPort ++ confTail

/-! ## Example inputs -/

/-- A package with accept port 2000 and an issuer that derives the pair from its
entropy state and fails when that state is 0. -/
def exampleEnv : Env Nat :=
  { stunnelPort := 2000,
    stunnelImage := "quay.io/konveyor/rsync-transfer:latest",
    stunnelConfigPrefix := "cfg-prefix-",
    stunnelSecretPrefix := "sec-prefix-",
    GenerateSSLCert := fun n =>
      if n = 0 then (.failed (.CertGenError "no entropy"), 0)
      else (.issued [0, n] [1, n] [2, n], n + 1) }

/-- The endpoint (ns1, wk1) with transfer port 8080. -/
def exampleEndpoint : Endpoint :=
  { NamespacedName := { Namespace := "ns1", Name := "wk1" },
    Labels := [("app", "crane2")],
    Port := 8080 }

/-- The endpoint (ns2, wk1): same name, another namespace. -/
def otherEndpoint : Endpoint :=
  { NamespacedName := { Namespace := "ns2", Name := "wk1" },
    Labels := [],
    Port := 9090 }

/-- An empty, reachable store; issuer entropy 7; no call made yet. -/
def emptyWorld : World Store Nat :=
  { store := { configMaps := [], secrets := [], faults := [] }, rng := 7, calls := [] }

/-- A store that already holds a ConfigMap under the derived name of
`exampleEndpoint`, and one unrelated Secret. -/
def occupiedWorld : World Store Nat :=
  { store :=
      { configMaps := [{ ObjectMeta := { Namespace := "ns1", Name := "cfg-prefix-wk1", Labels := [] },
                         Data := [("stunnel.conf", "old")] }],
        secrets := [{ ObjectMeta := { Namespace := "ns1", Name := "other", Labels := [] },
                      Data := [("k", [1])] }],
        faults := [] },
    rng := 7, calls := [] }

/-- An empty store whose second `Create` call finds the store unreachable. -/
def flakyWorld : World Store Nat :=
  { store := { configMaps := [], secrets := [],
               faults := [none, some (.StoreUnavailable "connection refused")] },
    rng := 7, calls := [] }

/-- An empty, reachable store with an issuer that has run out of entropy. -/
def dryWorld : World Store Nat :=
  { store := { configMaps := [], secrets := [], faults := [] }, rng := 0, calls := [] }

/-- A transport before provisioning. -/
def freshTransport : StunnelTransport :=
  { crt := none, key := none, port := 0, serverContainers := [], serverVolumes := [] }

/-! ## Rendering -/

theorem parse_stunnelServerConfTemplate :
    Template.Parse stunnelServerConfTemplate =
      .ok [.text confHead.data, .field "stunnelPort".data, .text confMiddle.data,
           .field "transferPort".data, .text confTail.data] := by
  rfl

theorem renderStunnelConf_eq (p t : Int) :
    renderStunnelConf p t = .ok (filledConf p t) := by
  unfold renderStunnelConf filledConf
  rw [parse_stunnelServerConfTemplate]
  simp [Template.Execute, Template.evalNode, List.lookup]

theorem Itoa_natCast (n : Nat) : Itoa (n : Int) = Nat.repr n := by
  simp [Itoa]

/-! ## Lines of the rendered text -/

theorem digitChar_ne_newline (n : Nat) : Nat.digitChar n ≠ '\n' := by
  by_cases h : n < 16
  · interval_cases n <;> decide
  · have hstar : Nat.digitChar n = '*' := by
      unfold Nat.digitChar
      simp only [show n ≠ 0 by omega, show n ≠ 1 by omega, show n ≠ 2 by omega,
        show n ≠ 3 by omega, show n ≠ 4 by omega, show n ≠ 5 by omega, show n ≠ 6 by omega,
        show n ≠ 7 by omega, show n ≠ 8 by omega, show n ≠ 9 by omega, show n ≠ 10 by omega,
        show n ≠ 11 by omega, show n ≠ 12 by omega, show n ≠ 13 by omega, show n ≠ 14 by omega,
        show n ≠ 15 by omega, if_false]
    rw [hstar]
    decide

theorem toDigitsCore_no_newline (fuel : Nat) :
    ∀ (n : Nat) (ds : List Char), (∀ c ∈ ds, c ≠ '\n') →
      ∀ c ∈ Nat.toDigitsCore 10 fuel n ds, c ≠ '\n' := by
  induction fuel with
  | zero =>
    intro n ds h c hc
    simp only [Nat.toDigitsCore] at hc
    exact h c hc
  | succ fuel ih =>
    intro n ds h c hc
    have hds : ∀ c ∈ Nat.digitChar (n % 10) :: ds, c ≠ '\n' := by
      intro d hd
      rcases List.mem_cons.mp hd with rfl | hd
      · exact digitChar_ne_newline _
      · exact h d hd
    simp only [Nat.toDigitsCore] at hc
    split at hc
    · exact hds c hc
    · exact ih _ _ hds c hc

theorem repr_no_newline (n : Nat) : ∀ c ∈ (Nat.repr n).data, c ≠ '\n' := by
  intro c hc
  have hc2 : c ∈ Nat.toDigitsCore 10 (n + 1) n [] := hc
  exact toDigitsCore_no_newline _ _ _ (by simp) c hc2

theorem Itoa_no_newline (i : Int) : ∀ c ∈ (Itoa i).data, c ≠ '\n' := by
  intro c hc
  unfold Itoa at hc
  split at hc
  · simp only [String.data_append, List.mem_append] at hc
    rcases hc with hc | hc
    · have : c = '-' := by simpa using hc
      rw [this]
      decide
    · exact repr_no_newline _ c hc
  · exact repr_no_newline _ c hc

theorem splitLines_ne_nil (cs : List Char) : splitLines cs ≠ [] := by
  cases cs with
  | nil => simp [splitLines]
  | cons c cs =>
    simp only [splitLines]
    split
    · simp
    · split <;> simp

theorem splitLines_cons (c : Char) (cs : List Char) :
    splitLines (c :: cs) =
      if c = '\n' then [] :: splitLines cs
      else
        match splitLines cs with
        | [] => [[c]]
        | l :: ls => (c :: l) :: ls := rfl

theorem splitLines_append_newline (xs ys : List Char) :
    splitLines (xs ++ '\n' :: ys) = splitLines xs ++ splitLines ys := by
  induction xs with
  | nil => simp [splitLines]
  | cons c xs ih =>
    rw [List.cons_append, splitLines_cons, splitLines_cons, ih]
    split
    · rfl
    · cases hx : splitLines xs with
      | nil => exact absurd hx (splitLines_ne_nil xs)
      | cons l ls => rfl

theorem splitLines_of_no_newline (xs : List Char) (h : ∀ c ∈ xs, c ≠ '\n') :
    splitLines xs = [xs] := by
  induction xs with
  | nil => rfl
  | cons c xs ih =>
    have hc : c ≠ '\n' := h c (List.mem_cons_self _ _)
    simp only [splitLines, hc, if_false]
    rw [ih (fun d hd => h d (List.mem_cons_of_mem _ hd))]

/-- The lines of the rendered text: the fixed lines of the skeleton, with the
`accept` and `connect` lines carrying the two decimal strings. -/
theorem splitLines_filledConf (p t : Int) :
    splitLines (filledConf p t).data =
      splitLines "foreground = yes\npid =\nsocket = l:TCP_NODELAY=1\nsocket = r:TCP_NODELAY=1\ndebug = 7\nsslVersion = TLSv1.2\n[rsync]".data ++
      [("accept = " ++ Itoa p).data] ++ [("connect = " ++ Itoa t).data] ++
      splitLines "key = /etc/stunnel/certs/tls.key\ncert = /etc/stunnel/certs/tls.crt\nTIMEOUTclose = 0\n".data := by
  have hd : (filledConf p t).data =
      "foreground = yes\npid =\nsocket = l:TCP_NODELAY=1\nsocket = r:TCP_NODELAY=1\ndebug = 7\nsslVersion = TLSv1.2\n[rsync]".data ++
        '\n' :: (("accept = " ++ Itoa p).data ++
        '\n' :: (("connect = " ++ Itoa t).data ++
        '\n' :: "key = /etc/stunnel/certs/tls.key\ncert = /etc/stunnel/certs/tls.crt\nTIMEOUTclose = 0\n".data)) := by
    have h1 : confHead.data =
        "foreground = yes\npid =\nsocket = l:TCP_NODELAY=1\nsocket = r:TCP_NODELAY=1\ndebug = 7\nsslVersion = TLSv1.2\n[rsync]".data ++
          '\n' :: "accept = ".data := by decide
    have h2 : confMiddle.data = '\n' :: "connect = ".data := by decide
    have h3 : confTail.data =
        '\n' :: "key = /etc/stunnel/certs/tls.key\ncert = /etc/stunnel/certs/tls.crt\nTIMEOUTclose = 0\n".data := by
      decide
    simp only [filledConf, String.data_append, h1, h2, h3, List.append_assoc, List.cons_append]
  have ha : ∀ c ∈ ("accept = " ++ Itoa p).data, c ≠ '\n' := by
    intro c hc
    simp only [String.data_append, List.mem_append] at hc
    rcases hc with hc | hc
    · revert c
      decide
    · exact Itoa_no_newline p c hc
  have hb : ∀ c ∈ ("connect = " ++ Itoa t).data, c ≠ '\n' := by
    intro c hc
    simp only [String.data_append, List.mem_append] at hc
    rcases hc with hc | hc
    · revert c
      decide
    · exact Itoa_no_newline t c hc
  rw [hd, splitLines_append_newline, splitLines_append_newline, splitLines_append_newline,
    splitLines_of_no_newline _ ha, splitLines_of_no_newline _ hb]
  simp only [List.append_assoc]

theorem confOption_key_filledConf (p t : Int) :
    confOption "key" (filledConf p t) = ["/etc/stunnel/certs/tls.key"] := by
  unfold confOption
  rw [splitLines_filledConf]
  have h1 : (splitLines "foreground = yes\npid =\nsocket = l:TCP_NODELAY=1\nsocket = r:TCP_NODELAY=1\ndebug = 7\nsslVersion = TLSv1.2\n[rsync]".data).filterMap
      (optionLine "key") = [] := by decide
  have h2 : (splitLines "key = /etc/stunnel/certs/tls.key\ncert = /etc/stunnel/certs/tls.crt\nTIMEOUTclose = 0\n".data).filterMap
      (optionLine "key") = ["/etc/stunnel/certs/tls.key"] := by decide
  have h3 : optionLine "key" ("accept = " ++ Itoa p).data = none := by
    have : ("accept = " ++ Itoa p).data = 'a' :: ("ccept = " ++ Itoa p).data := rfl
    rw [this]
    simp [optionLine, List.isPrefixOf]
  have h4 : optionLine "key" ("connect = " ++ Itoa t).data = none := by
    have : ("connect = " ++ Itoa t).data = 'c' :: ("onnect = " ++ Itoa t).data := rfl
    rw [this]
    simp [optionLine, List.isPrefixOf]
  simp only [List.filterMap_append, h1, h2, List.filterMap_cons, List.filterMap_nil, h3, h4,
    List.nil_append]

theorem confOption_cert_filledConf (p t : Int) :
    confOption "cert" (filledConf p t) = ["/etc/stunnel/certs/tls.crt"] := by
  unfold confOption
  rw [splitLines_filledConf]
  have h1 : (splitLines "foreground = yes\npid =\nsocket = l:TCP_NODELAY=1\nsocket = r:TCP_NODELAY=1\ndebug = 7\nsslVersion = TLSv1.2\n[rsync]".data).filterMap
      (optionLine "cert") = [] := by decide
  have h2 : (splitLines "key = /etc/stunnel/certs/tls.key\ncert = /etc/stunnel/certs/tls.crt\nTIMEOUTclose = 0\n".data).filterMap
      (optionLine "cert") = ["/etc/stunnel/certs/tls.crt"] := by decide
  have h3 : optionLine "cert" ("accept = " ++ Itoa p).data = none := by
    have : ("accept = " ++ Itoa p).data = 'a' :: ("ccept = " ++ Itoa p).data := rfl
    rw [this]
    simp [optionLine, List.isPrefixOf]
  have h4 : optionLine "cert" ("connect = " ++ Itoa t).data = none := by
    have : ("connect = " ++ Itoa t).data = 'c' :: 'o' :: ("nnect = " ++ Itoa t).data := rfl
    rw [this]
    simp [optionLine, List.isPrefixOf]
  simp only [List.filterMap_append, h1, h2, List.filterMap_cons, List.filterMap_nil, h3, h4,
    List.nil_append]

/-! ## The steps of `CreateServer`, case by case -/

theorem createStunnelServerConfig_eq {σ ρ : Type} (env : Env ρ) (c : Client σ)
    (w : World σ ρ) (e : Endpoint) :
    createStunnelServerConfig env c w e =
      w.Create c (.configMap (stunnelConfigMap env e (filledConf env.stunnelPort e.Port))) := by
  unfold createStunnelServerConfig
  rw [renderStunnelConf_eq]

/-- The config create fails: nothing else happens. -/
theorem createServer_of_config_fails {σ ρ : Type} (env : Env ρ) (c : Client σ)
    (w : World σ ρ) (s : StunnelTransport) (e : Endpoint) (err : Error)
    (h : (c.Create w.store
      (.configMap (stunnelConfigMap env e (filledConf env.stunnelPort e.Port)))).1 = some err) :
    CreateServer env c w s e =
      (some err, { s with port := env.stunnelPort },
       { store := (c.Create w.store
           (.configMap (stunnelConfigMap env e (filledConf env.stunnelPort e.Port)))).2,
         rng := w.rng,
         calls := w.calls ++
           [.Create (.configMap (stunnelConfigMap env e (filledConf env.stunnelPort e.Port)))] }) := by
  unfold CreateServer createStunnelServerResources
  rw [createStunnelServerConfig_eq]
  simp only [World.Create, h]

/-- The config create succeeds and the issuer fails. -/
theorem createServer_of_issuer_fails {σ ρ : Type} (env : Env ρ) (c : Client σ)
    (w : World σ ρ) (s : StunnelTransport) (e : Endpoint) (err : Error)
    (h : (c.Create w.store
      (.configMap (stunnelConfigMap env e (filledConf env.stunnelPort e.Port)))).1 = none)
    (hg : (env.GenerateSSLCert w.rng).1 = .failed err) :
    CreateServer env c w s e =
      (some err, { s with port := env.stunnelPort, key := none, crt := none },
       { store := (c.Create w.store
           (.configMap (stunnelConfigMap env e (filledConf env.stunnelPort e.Port)))).2,
         rng := (env.GenerateSSLCert w.rng).2,
         calls := w.calls ++
           [.Create (.configMap (stunnelConfigMap env e (filledConf env.stunnelPort e.Port))),
            .GenerateSSLCert] }) := by
  unfold CreateServer createStunnelServerResources
  rw [createStunnelServerConfig_eq]
  simp [World.Create, h, createStunnelServerSecret, hg]

/-- The config create succeeds and the issuer succeeds: the outcome is that of
the secret create. -/
theorem createServer_of_issued {σ ρ : Type} (env : Env ρ) (c : Client σ)
    (w : World σ ρ) (s : StunnelTransport) (e : Endpoint) (ca crt key : Bytes)
    (h : (c.Create w.store
      (.configMap (stunnelConfigMap env e (filledConf env.stunnelPort e.Port)))).1 = none)
    (hg : (env.GenerateSSLCert w.rng).1 = .issued ca crt key) :
    CreateServer env c w s e =
      ((c.Create (c.Create w.store
          (.configMap (stunnelConfigMap env e (filledConf env.stunnelPort e.Port)))).2
          (.secret (stunnelSecret env
            { s with port := env.stunnelPort, key := some key, crt := some crt } e))).1,
       (match (c.Create (c.Create w.store
          (.configMap (stunnelConfigMap env e (filledConf env.stunnelPort e.Port)))).2
          (.secret (stunnelSecret env
            { s with port := env.stunnelPort, key := some key, crt := some crt } e))).1 with
        | some _ => { s with port := env.stunnelPort, key := some key, crt := some crt }
        | none =>
          createStunnelServerVolumes env
            (createStunnelServerContainers env
              { s with port := env.stunnelPort, key := some key, crt := some crt }
              e.NamespacedName)
            e.NamespacedName),
       { store := (c.Create (c.Create w.store
           (.configMap (stunnelConfigMap env e (filledConf env.stunnelPort e.Port)))).2
           (.secret (stunnelSecret env
             { s with port := env.stunnelPort, key := some key, crt := some crt } e))).2,
         rng := (env.GenerateSSLCert w.rng).2,
         calls := w.calls ++
           [.Create (.configMap (stunnelConfigMap env e (filledConf env.stunnelPort e.Port))),
            .GenerateSSLCert,
            .Create (.secret (stunnelSecret env
              { s with port := env.stunnelPort, key := some key, crt := some crt } e))] }) := by
  unfold CreateServer createStunnelServerResources
  rw [createStunnelServerConfig_eq]
  simp only [World.Create, h, createStunnelServerSecret, hg]
  cases hs : (c.Create (c.Create w.store
      (.configMap (stunnelConfigMap env e (filledConf env.stunnelPort e.Port)))).2
      (.secret (stunnelSecret env
        { s with port := env.stunnelPort, key := some key, crt := some crt } e))).1 <;>
    simp

/-- A successful call went through all three steps. -/
theorem createServer_ok_steps {σ ρ : Type} (env : Env ρ) (c : Client σ)
    (w : World σ ρ) (s : StunnelTransport) (e : Endpoint)
    (h : (CreateServer env c w s e).1 = none) :
    (c.Create w.store
      (.configMap (stunnelConfigMap env e (filledConf env.stunnelPort e.Port)))).1 = none ∧
    ∃ ca crt key, (env.GenerateSSLCert w.rng).1 = .issued ca crt key ∧
      (c.Create (c.Create w.store
          (.configMap (stunnelConfigMap env e (filledConf env.stunnelPort e.Port)))).2
          (.secret (stunnelSecret env
            { s with port := env.stunnelPort, key := some key, crt := some crt } e))).1 = none := by
  cases h1 : (c.Create w.store
      (.configMap (stunnelConfigMap env e (filledConf env.stunnelPort e.Port)))).1 with
  | some err =>
    rw [createServer_of_config_fails env c w s e err h1] at h
    exact absurd h (by simp)
  | none =>
    refine ⟨rfl, ?_⟩
    cases hg : (env.GenerateSSLCert w.rng).1 with
    | failed err =>
      rw [createServer_of_issuer_fails env c w s e err h1 hg] at h
      exact absurd h (by simp)
    | issued ca crt key =>
      rw [createServer_of_issued env c w s e ca crt key h1 hg] at h
      exact ⟨ca, crt, key, rfl, h⟩

theorem str_append_left_cancel (p a b : String) (h : p ++ a = p ++ b) : a = b := by
  have h2 := congrArg String.data h
  simp only [String.data_append] at h2
  exact String.ext (List.append_cancel_left h2)

theorem str_append_right_cancel (p q a : String) (h : p ++ a = q ++ a) : p = q := by
  have h2 := congrArg String.data h
  simp only [String.data_append] at h2
  exact String.ext (List.append_cancel_right h2)

/-! ## The create-only store -/

theorem mapClient_create_cases (st : Store) (obj : Object) :
    (∃ err rest, st.faults = some err :: rest ∧
      mapClient.Create st obj = (some err, { st with faults := rest })) ∨
    mapClient.Create st obj = Store.insert { st with faults := st.faults.tail } obj := by
  rcases hf : st.faults with _ | ⟨_ | err, rest⟩
  · right
    simp only [mapClient, hf, List.tail_nil]
    rw [← hf]
  · right
    simp only [mapClient, hf, List.tail_cons]
  · left
    exact ⟨err, rest, rfl, by simp only [mapClient, hf]⟩

theorem insert_configMap_secrets (st : Store) (cm : ConfigMap) :
    (st.insert (.configMap cm)).2.secrets = st.secrets := by
  simp only [Store.insert]
  split <;> rfl

theorem insert_secret_configMaps (st : Store) (sec : Secret) :
    (st.insert (.secret sec)).2.configMaps = st.configMaps := by
  simp only [Store.insert]
  split <;> rfl

theorem insert_configMap_ok (st : Store) (cm : ConfigMap)
    (h : (st.insert (.configMap cm)).1 = none) :
    (st.insert (.configMap cm)).2.configMaps = cm :: st.configMaps := by
  simp only [Store.insert] at h ⊢
  split at h
  · exact absurd h (by simp)
  · rename_i hh
    rw [if_neg hh]

theorem insert_secret_ok (st : Store) (sec : Secret)
    (h : (st.insert (.secret sec)).1 = none) :
    (st.insert (.secret sec)).2.secrets = sec :: st.secrets := by
  simp only [Store.insert] at h ⊢
  split at h
  · exact absurd h (by simp)
  · rename_i hh
    rw [if_neg hh]

theorem insert_fails_unchanged (st : Store) (obj : Object) (err : Error)
    (h : (st.insert obj).1 = some err) :
    (st.insert obj).2 = st := by
  cases obj <;>
  · simp only [Store.insert] at h ⊢
    split at h
    · rename_i hh
      rw [if_pos hh]
    · exact absurd h (by simp)

/-- A `Create` of a ConfigMap never touches the Secrets. -/
theorem mapClient_create_configMap_secrets (st : Store) (cm : ConfigMap) :
    (mapClient.Create st (.configMap cm)).2.secrets = st.secrets := by
  rcases mapClient_create_cases st (.configMap cm) with ⟨err, rest, _, h⟩ | h
  · rw [h]
  · rw [h, insert_configMap_secrets]

/-- A `Create` of a Secret never touches the ConfigMaps. -/
theorem mapClient_create_secret_configMaps (st : Store) (sec : Secret) :
    (mapClient.Create st (.secret sec)).2.configMaps = st.configMaps := by
  rcases mapClient_create_cases st (.secret sec) with ⟨err, rest, _, h⟩ | h
  · rw [h]
  · rw [h, insert_secret_configMaps]

/-- A successful `Create` of a ConfigMap puts it in front. -/
theorem mapClient_create_configMap_ok (st : Store) (cm : ConfigMap)
    (h : (mapClient.Create st (.configMap cm)).1 = none) :
    (mapClient.Create st (.configMap cm)).2.configMaps = cm :: st.configMaps := by
  rcases mapClient_create_cases st (.configMap cm) with ⟨err, rest, _, h2⟩ | h2
  · rw [h2] at h
    exact absurd h (by simp)
  · rw [h2] at h ⊢
    exact insert_configMap_ok _ cm h

/-- A successful `Create` of a Secret puts it in front. -/
theorem mapClient_create_secret_ok (st : Store) (sec : Secret)
    (h : (mapClient.Create st (.secret sec)).1 = none) :
    (mapClient.Create st (.secret sec)).2.secrets = sec :: st.secrets := by
  rcases mapClient_create_cases st (.secret sec) with ⟨err, rest, _, h2⟩ | h2
  · rw [h2] at h
    exact absurd h (by simp)
  · rw [h2] at h ⊢
    exact insert_secret_ok _ sec h

/-- A failed `Create` leaves the objects of both kinds as they were. -/
theorem mapClient_create_fails_objects (st : Store) (obj : Object) (err : Error)
    (h : (mapClient.Create st obj).1 = some err) :
    (mapClient.Create st obj).2.configMaps = st.configMaps ∧
    (mapClient.Create st obj).2.secrets = st.secrets := by
  rcases mapClient_create_cases st obj with ⟨err2, rest, _, h2⟩ | h2
  · rw [h2]
    exact ⟨rfl, rfl⟩
  · rw [h2] at h ⊢
    rw [insert_fails_unchanged _ obj err h]
    exact ⟨rfl, rfl⟩

/-- A `Create` under a name that exists fails. -/
theorem mapClient_create_existing_fails (st : Store) (cm : ConfigMap)
    (h : st.configMaps.any
      (fun x => x.ObjectMeta.hasKey cm.ObjectMeta.Namespace cm.ObjectMeta.Name) = true) :
    ∃ err, (mapClient.Create st (.configMap cm)).1 = some err := by
  rcases mapClient_create_cases st (.configMap cm) with ⟨err, rest, _, h2⟩ | h2
  · exact ⟨err, by rw [h2]⟩
  · refine ⟨.StoreCreateConflict, ?_⟩
    rw [h2]
    simp only [Store.insert, h, if_true]

theorem getConfigMap_head (st : Store) (cm : ConfigMap) (rest : List ConfigMap)
    (key : NamespacedName) (into : ConfigMap) (h : st.configMaps = cm :: rest)
    (hk : cm.ObjectMeta.hasKey key.Namespace key.Name = true) :
    mapClient.GetConfigMap st key into = (cm, none) := by
  simp only [mapClient, h, List.find?_cons, hk]

theorem getSecret_head (st : Store) (sec : Secret) (rest : List Secret)
    (key : NamespacedName) (into : Secret) (h : st.secrets = sec :: rest)
    (hk : sec.ObjectMeta.hasKey key.Namespace key.Name = true) :
    mapClient.GetSecret st key into = (sec, none) := by
  simp only [mapClient, h, List.find?_cons, hk]

/-! ## The claims -/

/-- C1: whenever `CreateServer` succeeds (both creates succeeded), it has created
a ConfigMap whose only entry, under the key `stunnel.conf`, is the template
rendered with the accept port `stunnelPort` and the endpoint's transfer port; the
transport's port is `stunnelPort`; and there is exactly one container, whose
single container port is `stunnelPort`. -/
theorem createServer_config_port_container {σ ρ : Type} (env : Env ρ) (c : Client σ)
    (w : World σ ρ) (s : StunnelTransport) (e : Endpoint)
    (h : (CreateServer env c w s e).1 = none) :
    ∃ text cm sec ctr,
      renderStunnelConf env.stunnelPort e.Port = .ok text ∧
      text = filledConf env.stunnelPort e.Port ∧
      (CreateServer env c w s e).2.2.calls =
        w.calls ++ [.Create (.configMap cm), .GenerateSSLCert, .Create (.secret sec)] ∧
      (c.Create w.store (.configMap cm)).1 = none ∧
      cm.Data = [("stunnel.conf", text)] ∧
      (CreateServer env c w s e).2.1.port = env.stunnelPort ∧
      (CreateServer env c w s e).2.1.serverContainers = [ctr] ∧
      ctr.Ports.map (fun p => p.ContainerPort) = [env.stunnelPort] := by
  obtain ⟨h1, ca, crt, key, hg, h2⟩ := createServer_ok_steps env c w s e h
  rw [createServer_of_issued env c w s e ca crt key h1 hg]
  simp only [h2]
  exact ⟨_, _, _, _, renderStunnelConf_eq _ _, rfl, rfl, h1, rfl, rfl, rfl, rfl⟩

/-- Witness of C1: endpoint (ns1, wk1, 8080) on an empty store with accept port 2000. -/
theorem createServer_config_port_container_witness :
    (CreateServer exampleEnv mapClient emptyWorld freshTransport exampleEndpoint).1 = none ∧
    filledConf 2000 8080 =
      "foreground = yes\npid =\nsocket = l:TCP_NODELAY=1\nsocket = r:TCP_NODELAY=1\ndebug = 7\nsslVersion = TLSv1.2\n[rsync]\naccept = 2000\nconnect = 8080\nkey = /etc/stunnel/certs/tls.key\ncert = /etc/stunnel/certs/tls.crt\nTIMEOUTclose = 0\n" ∧
    ∃ text cm sec ctr,
      renderStunnelConf 2000 8080 = .ok text ∧
      text = filledConf 2000 8080 ∧
      (CreateServer exampleEnv mapClient emptyWorld freshTransport exampleEndpoint).2.2.calls =
        [] ++ [.Create (.configMap cm), .GenerateSSLCert, .Create (.secret sec)] ∧
      (mapClient.Create emptyWorld.store (.configMap cm)).1 = none ∧
      cm.Data = [("stunnel.conf", text)] ∧
      (CreateServer exampleEnv mapClient emptyWorld freshTransport exampleEndpoint).2.1.port = 2000 ∧
      (CreateServer exampleEnv mapClient emptyWorld freshTransport
        exampleEndpoint).2.1.serverContainers = [ctr] ∧
      ctr.Ports.map (fun p => p.ContainerPort) = [2000] :=
  ⟨by decide, by decide,
   createServer_config_port_container exampleEnv mapClient emptyWorld freshTransport
     exampleEndpoint (by decide)⟩

/-- C4: for all non-negative ports `a` and `b`, rendering the template never
fails and yields the text before the first substitution point, the decimal
string of `a`, the text between the two points, the decimal string of `b` and
the text after, nothing else; the template itself is that skeleton around the
two actions; and the output contains `accept = <a>` and `connect = <b>`. -/
theorem render_is_skeleton_with_ports (a b : Nat) :
    stunnelServerConfTemplate =
      confHead ++ "\x7b\x7b $.stunnelPort \x7d\x7d" ++ confMiddle ++
        "\x7b\x7b $.transferPort \x7d\x7d" ++ confTail ∧
    ∃ text,
      renderStunnelConf (a : Int) (b : Int) = .ok text ∧
      text = confHead ++ Nat.repr a ++ confMiddle ++ Nat.repr b ++ confTail ∧
      List.IsInfix ("accept = " ++ Nat.repr a).data text.data ∧
      List.IsInfix ("connect = " ++ Nat.repr b).data text.data := by
  refine ⟨by decide, _, renderStunnelConf_eq _ _, ?_, ?_, ?_⟩
  · simp [filledConf, Itoa_natCast]
  · refine ⟨"foreground = yes\npid =\nsocket = l:TCP_NODELAY=1\nsocket = r:TCP_NODELAY=1\ndebug = 7\nsslVersion = TLSv1.2\n[rsync]\n".data,
      (confMiddle ++ Nat.repr b ++ confTail).data, ?_⟩
    simp [filledConf, Itoa_natCast, confHead, String.data_append]
  · refine ⟨(confHead ++ Nat.repr a ++ "\n").data, confTail.data, ?_⟩
    simp [filledConf, Itoa_natCast, confMiddle, String.data_append]

/-- C7: whenever `CreateServer` succeeds, the Secret it created carries the name
`stunnelSecretPrefix` + endpoint name, the endpoint's namespace and the
endpoint's labels (namespace and labels as on the ConfigMap), and its data holds
exactly the keys `tls.crt` and `tls.key`, whose values are the certificate and
the key of the single pair the issuer returned, which the transport holds after
the call. -/
theorem createServer_secret_matches_transport {σ ρ : Type} (env : Env ρ) (c : Client σ)
    (w : World σ ρ) (s : StunnelTransport) (e : Endpoint)
    (h : (CreateServer env c w s e).1 = none) :
    ∃ cm sec ca crt key,
      (CreateServer env c w s e).2.2.calls =
        w.calls ++ [.Create (.configMap cm), .GenerateSSLCert, .Create (.secret sec)] ∧
      (c.Create (c.Create w.store (.configMap cm)).2 (.secret sec)).1 = none ∧
      (CreateServer env c w s e).2.2.store =
        (c.Create (c.Create w.store (.configMap cm)).2 (.secret sec)).2 ∧
      sec.ObjectMeta.Name = env.stunnelSecretPrefix ++ e.NamespacedName.Name ∧
      sec.ObjectMeta.Namespace = e.NamespacedName.Namespace ∧
      sec.ObjectMeta.Labels = e.Labels ∧
      sec.ObjectMeta.Namespace = cm.ObjectMeta.Namespace ∧
      sec.ObjectMeta.Labels = cm.ObjectMeta.Labels ∧
      sec.Data = [("tls.crt", crt), ("tls.key", key)] ∧
      (env.GenerateSSLCert w.rng).1 = .issued ca crt key ∧
      (CreateServer env c w s e).2.1.crt = some crt ∧
      (CreateServer env c w s e).2.1.key = some key := by
  obtain ⟨h1, ca, crt, key, hg, h2⟩ := createServer_ok_steps env c w s e h
  rw [createServer_of_issued env c w s e ca crt key h1 hg]
  simp only [h2]
  exact ⟨_, _, ca, crt, key, rfl, h2, rfl, rfl, rfl, rfl, rfl, rfl, rfl, hg, rfl, rfl⟩

/-- Witness of C7: endpoint (ns1, wk1, 8080) on an empty store. -/
theorem createServer_secret_matches_transport_witness :
    (CreateServer exampleEnv mapClient emptyWorld freshTransport exampleEndpoint).1 = none ∧
    ∃ cm sec ca crt key,
      (CreateServer exampleEnv mapClient emptyWorld freshTransport exampleEndpoint).2.2.calls =
        [] ++ [.Create (.configMap cm), .GenerateSSLCert, .Create (.secret sec)] ∧
      (mapClient.Create (mapClient.Create emptyWorld.store (.configMap cm)).2 (.secret sec)).1 =
        none ∧
      (CreateServer exampleEnv mapClient emptyWorld freshTransport exampleEndpoint).2.2.store =
        (mapClient.Create (mapClient.Create emptyWorld.store (.configMap cm)).2 (.secret sec)).2 ∧
      sec.ObjectMeta.Name = "sec-prefix-" ++ "wk1" ∧
      sec.ObjectMeta.Namespace = "ns1" ∧
      sec.ObjectMeta.Labels = [("app", "crane2")] ∧
      sec.ObjectMeta.Namespace = cm.ObjectMeta.Namespace ∧
      sec.ObjectMeta.Labels = cm.ObjectMeta.Labels ∧
      sec.Data = [("tls.crt", crt), ("tls.key", key)] ∧
      (exampleEnv.GenerateSSLCert 7).1 = .issued ca crt key ∧
      (CreateServer exampleEnv mapClient emptyWorld freshTransport exampleEndpoint).2.1.crt =
        some crt ∧
      (CreateServer exampleEnv mapClient emptyWorld freshTransport exampleEndpoint).2.1.key =
        some key :=
  ⟨by decide,
   createServer_secret_matches_transport exampleEnv mapClient emptyWorld freshTransport
     exampleEndpoint (by decide)⟩

/-- C10, as stated, fails: on a store that already holds a ConfigMap under the
derived name, `CreateServer` does not invoke the issuer at all. -/
theorem createServer_issuer_not_invoked_on_conflict :
    (CreateServer exampleEnv mapClient occupiedWorld freshTransport exampleEndpoint).1 =
      some .StoreCreateConflict ∧
    issuerCalls
      (CreateServer exampleEnv mapClient occupiedWorld freshTransport exampleEndpoint).2.2.calls = 0 ∧
    ¬ issuerCalls
      (CreateServer exampleEnv mapClient occupiedWorld freshTransport exampleEndpoint).2.2.calls = 1 := by
  decide

/-- C10, amended: in every `CreateServer` call no `Get` is performed on the
store, and the certificate issuer is invoked exactly once when the configuration
step succeeds and not at all when it fails. -/
theorem createServer_issues_once_after_config_never_reads {σ ρ : Type} (env : Env ρ)
    (c : Client σ) (w : World σ ρ) (s : StunnelTransport) (e : Endpoint) :
    ∃ made,
      (CreateServer env c w s e).2.2.calls = w.calls ++ made ∧
      made.all (fun k => !k.isGet) = true ∧
      issuerCalls made =
        (if (createStunnelServerConfig env c w e).1 = none then 1 else 0) := by
  rw [createStunnelServerConfig_eq]
  cases h1 : (c.Create w.store
      (.configMap (stunnelConfigMap env e (filledConf env.stunnelPort e.Port)))).1 with
  | some err =>
    rw [createServer_of_config_fails env c w s e err h1]
    exact ⟨_, rfl, by simp [Call.isGet], by simp [issuerCalls, World.Create, h1]⟩
  | none =>
    cases hg : (env.GenerateSSLCert w.rng).1 with
    | failed err =>
      rw [createServer_of_issuer_fails env c w s e err h1 hg]
      exact ⟨_, rfl, by simp [Call.isGet], by simp [issuerCalls, World.Create, h1]⟩
    | issued ca crt key =>
      rw [createServer_of_issued env c w s e ca crt key h1 hg]
      exact ⟨_, rfl, by simp [Call.isGet], by simp [issuerCalls, World.Create, h1]⟩

/-- C5, as stated, fails: the identities (ns1, wk1) and (ns2, wk1) are distinct,
yet both artifact names derived for one equal those derived for the other. -/
theorem artifact_names_collide_across_namespaces :
    exampleEndpoint.NamespacedName ≠ otherEndpoint.NamespacedName ∧
    (stunnelConfigMap exampleEnv exampleEndpoint "").ObjectMeta.Name =
      (stunnelConfigMap exampleEnv otherEndpoint "").ObjectMeta.Name ∧
    (stunnelSecret exampleEnv freshTransport exampleEndpoint).ObjectMeta.Name =
      (stunnelSecret exampleEnv freshTransport otherEndpoint).ObjectMeta.Name := by
  decide

/-- C5, amended: for any two distinct endpoint identities, the store keys (kind,
namespace, derived name) of the two artifacts of one identity are all different
from the store keys of the two artifacts of the other. -/
theorem artifact_keys_disjoint {ρ : Type} (env : Env ρ) (e e2 : Endpoint)
    (text text2 : String) (s s2 : StunnelTransport)
    (h : e.NamespacedName ≠ e2.NamespacedName) :
    ∀ k ∈ [(Object.configMap (stunnelConfigMap env e text)).key,
           (Object.secret (stunnelSecret env s e)).key],
      k ∉ [(Object.configMap (stunnelConfigMap env e2 text2)).key,
           (Object.secret (stunnelSecret env s2 e2)).key] := by
  have hne : ¬ (e.NamespacedName.Namespace = e2.NamespacedName.Namespace ∧
      e.NamespacedName.Name = e2.NamespacedName.Name) := by
    intro hh
    apply h
    cases hn : e.NamespacedName
    cases hn2 : e2.NamespacedName
    simp_all
  intro k hk
  simp only [List.mem_cons, List.mem_singleton, List.not_mem_nil, or_false] at hk
  rcases hk with rfl | rfl
  · simp only [Object.key, stunnelConfigMap, stunnelSecret, List.mem_cons, List.mem_singleton,
      List.not_mem_nil, or_false, Prod.mk.injEq, true_and, not_or]
    refine ⟨fun hh => hne ⟨hh.1, str_append_left_cancel _ _ _ hh.2⟩, ?_⟩
    simp
  · simp only [Object.key, stunnelConfigMap, stunnelSecret, List.mem_cons, List.mem_singleton,
      List.not_mem_nil, or_false, Prod.mk.injEq, true_and, not_or]
    refine ⟨by simp, fun hh => hne ⟨hh.1, str_append_left_cancel _ _ _ hh.2⟩⟩

/-- Witness of amended C5: (ns1, wk1) against (ns2, wk1). -/
theorem artifact_keys_disjoint_witness :
    exampleEndpoint.NamespacedName ≠ otherEndpoint.NamespacedName ∧
    ∀ k ∈ [(Object.configMap (stunnelConfigMap exampleEnv exampleEndpoint "a")).key,
           (Object.secret (stunnelSecret exampleEnv freshTransport exampleEndpoint)).key],
      k ∉ [(Object.configMap (stunnelConfigMap exampleEnv otherEndpoint "b")).key,
           (Object.secret (stunnelSecret exampleEnv freshTransport otherEndpoint)).key] :=
  ⟨by decide,
   artifact_keys_disjoint exampleEnv exampleEndpoint otherEndpoint "a" "b" freshTransport
     freshTransport (by decide)⟩

/-- C8: provided the two name prefixes differ, the volumes and the container's
mounts carry the same two distinct names (none dangling); the config volume
refers to the ConfigMap under the name `createStunnelServerConfig` gave it; the
secret volume refers to the Secret under the name `createStunnelServerSecret`
gave it and selects the keys `tls.crt` and `tls.key`, each path equal to its key. -/
theorem volumes_match_mounts_and_artifacts {ρ : Type} (env : Env ρ) (e : Endpoint)
    (s s2 s3 : StunnelTransport) (text : String)
    (hp : env.stunnelConfigPrefix ≠ env.stunnelSecretPrefix) :
    ∃ ctr cfgVol secVol secSrc,
      (createStunnelServerContainers env s e.NamespacedName).serverContainers = [ctr] ∧
      (createStunnelServerVolumes env s2 e.NamespacedName).serverVolumes = [cfgVol, secVol] ∧
      [cfgVol.Name, secVol.Name] = ctr.VolumeMounts.map (fun m => m.Name) ∧
      cfgVol.Name ≠ secVol.Name ∧
      cfgVol.VolumeSource =
        { ConfigMap := some
            { LocalObjectReference := { Name := (stunnelConfigMap env e text).ObjectMeta.Name } },
          Secret := none } ∧
      secVol.VolumeSource = { ConfigMap := none, Secret := some secSrc } ∧
      secSrc.SecretName = (stunnelSecret env s3 e).ObjectMeta.Name ∧
      secSrc.Items.map (fun i => i.Key) = ["tls.crt", "tls.key"] ∧
      ∀ i ∈ secSrc.Items, i.Path = i.Key := by
  refine ⟨_, _, _, _, rfl, rfl, rfl, ?_, rfl, rfl, rfl, rfl, ?_⟩
  · exact fun hh => hp (str_append_right_cancel _ _ _ hh)
  · simp

/-- Witness of C8: the prefixes `cfg-prefix-` and `sec-prefix-`. -/
theorem volumes_match_mounts_and_artifacts_witness :
    exampleEnv.stunnelConfigPrefix ≠ exampleEnv.stunnelSecretPrefix ∧
    ∃ ctr cfgVol secVol secSrc,
      (createStunnelServerContainers exampleEnv freshTransport
        exampleEndpoint.NamespacedName).serverContainers = [ctr] ∧
      (createStunnelServerVolumes exampleEnv freshTransport
        exampleEndpoint.NamespacedName).serverVolumes = [cfgVol, secVol] ∧
      [cfgVol.Name, secVol.Name] = ctr.VolumeMounts.map (fun m => m.Name) ∧
      cfgVol.Name ≠ secVol.Name ∧
      cfgVol.VolumeSource =
        { ConfigMap := some
            { LocalObjectReference :=
                { Name := (stunnelConfigMap exampleEnv exampleEndpoint "").ObjectMeta.Name } },
          Secret := none } ∧
      secVol.VolumeSource = { ConfigMap := none, Secret := some secSrc } ∧
      secSrc.SecretName = (stunnelSecret exampleEnv freshTransport exampleEndpoint).ObjectMeta.Name ∧
      secSrc.Items.map (fun i => i.Key) = ["tls.crt", "tls.key"] ∧
      ∀ i ∈ secSrc.Items, i.Path = i.Key :=
  ⟨by decide,
   volumes_match_mounts_and_artifacts exampleEnv exampleEndpoint freshTransport freshTransport
     freshTransport "" (by decide)⟩

/-- C2: on the create-only store, whenever the configuration step fails,
`CreateServer` returns that error, the only call it made is the `Create` of the
ConfigMap (the issuer is not invoked, its entropy is untouched, no `Create` of a
Secret is issued), and the Secrets in the store are unchanged; and the step does
fail whenever a ConfigMap with the derived name exists in the endpoint's
namespace. -/
theorem createServer_stops_at_config_failure {ρ : Type} (env : Env ρ) (w : World Store ρ)
    (s : StunnelTransport) (e : Endpoint) :
    (∀ err, (createStunnelServerConfig env mapClient w e).1 = some err →
      (CreateServer env mapClient w s e).1 = some err ∧
      (CreateServer env mapClient w s e).2.2.calls =
        w.calls ++ [.Create (.configMap (stunnelConfigMap env e
          (filledConf env.stunnelPort e.Port)))] ∧
      issuerCalls (CreateServer env mapClient w s e).2.2.calls = issuerCalls w.calls ∧
      (CreateServer env mapClient w s e).2.2.rng = w.rng ∧
      ((CreateServer env mapClient w s e).2.2.calls.drop w.calls.length).all
        (fun k => !k.isSecretCreate) = true ∧
      (CreateServer env mapClient w s e).2.2.store.secrets = w.store.secrets) ∧
    (w.store.configMaps.any (fun x => x.ObjectMeta.hasKey e.NamespacedName.Namespace
        (env.stunnelConfigPrefix ++ e.NamespacedName.Name)) = true →
      ∃ err, (createStunnelServerConfig env mapClient w e).1 = some err) := by
  constructor
  · intro err hfail
    rw [createStunnelServerConfig_eq] at hfail
    have h1 : (mapClient.Create w.store
        (.configMap (stunnelConfigMap env e (filledConf env.stunnelPort e.Port)))).1 =
        some err := hfail
    rw [createServer_of_config_fails env mapClient w s e err h1]
    refine ⟨rfl, rfl, ?_, rfl, ?_, ?_⟩
    · simp [issuerCalls]
    · simp [Call.isSecretCreate]
    · exact mapClient_create_configMap_secrets _ _
  · intro hex
    rw [createStunnelServerConfig_eq]
    exact mapClient_create_existing_fails w.store _ hex

/-- Witness of C2: a store that already holds `cfg-prefix-wk1` in `ns1`. -/
theorem createServer_stops_at_config_failure_witness :
    (createStunnelServerConfig exampleEnv mapClient occupiedWorld exampleEndpoint).1 =
      some .StoreCreateConflict ∧
    (CreateServer exampleEnv mapClient occupiedWorld freshTransport exampleEndpoint).1 =
      some .StoreCreateConflict ∧
    issuerCalls
      (CreateServer exampleEnv mapClient occupiedWorld freshTransport exampleEndpoint).2.2.calls =
      issuerCalls occupiedWorld.calls ∧
    (CreateServer exampleEnv mapClient occupiedWorld freshTransport
      exampleEndpoint).2.2.store.secrets = occupiedWorld.store.secrets ∧
    ∃ err, (createStunnelServerConfig exampleEnv mapClient occupiedWorld exampleEndpoint).1 =
      some err :=
  ⟨by decide,
   ((createServer_stops_at_config_failure exampleEnv occupiedWorld freshTransport
      exampleEndpoint).1 .StoreCreateConflict (by decide)).1,
   ((createServer_stops_at_config_failure exampleEnv occupiedWorld freshTransport
      exampleEndpoint).1 .StoreCreateConflict (by decide)).2.2.1,
   ((createServer_stops_at_config_failure exampleEnv occupiedWorld freshTransport
      exampleEndpoint).1 .StoreCreateConflict (by decide)).2.2.2.2.2,
   (createServer_stops_at_config_failure exampleEnv occupiedWorld freshTransport
      exampleEndpoint).2 (by decide)⟩

/-- C3: on the create-only store, after a successful `CreateServer` for an
endpoint, `getServerConfig` and `getServerSecret` on the endpoint's identity both
succeed and return exactly the ConfigMap and the Secret that `CreateServer`
created, with data `stunnel.conf` (the rendered text) and `tls.crt`, `tls.key`. -/
theorem lookup_returns_what_createServer_wrote {ρ : Type} (env : Env ρ) (w : World Store ρ)
    (s : StunnelTransport) (e : Endpoint)
    (h : (CreateServer env mapClient w s e).1 = none) :
    ∃ cm sec crt key,
      (CreateServer env mapClient w s e).2.2.calls =
        w.calls ++ [.Create (.configMap cm), .GenerateSSLCert, .Create (.secret sec)] ∧
      cm.Data = [("stunnel.conf", filledConf env.stunnelPort e.Port)] ∧
      sec.Data = [("tls.crt", crt), ("tls.key", key)] ∧
      (getServerConfig env mapClient (CreateServer env mapClient w s e).2.2
        e.NamespacedName).1 = (cm, none) ∧
      (getServerSecret env mapClient (CreateServer env mapClient w s e).2.2
        e.NamespacedName).1 = (sec, none) := by
  obtain ⟨h1, ca, crt, key, hg, h2⟩ := createServer_ok_steps env mapClient w s e h
  rw [createServer_of_issued env mapClient w s e ca crt key h1 hg]
  refine ⟨_, _, crt, key, rfl, rfl, rfl, ?_, ?_⟩
  · refine getConfigMap_head _ _ w.store.configMaps _ _ ?_ ?_
    · simp only []
      rw [mapClient_create_secret_configMaps, mapClient_create_configMap_ok _ _ h1]
    · simp [ObjectMeta.hasKey, stunnelConfigMap]
  · refine getSecret_head _ _ w.store.secrets _ _ ?_ ?_
    · simp only []
      rw [mapClient_create_secret_ok _ _ h2, mapClient_create_configMap_secrets]
    · simp [ObjectMeta.hasKey, stunnelSecret]

/-- Witness of C3: endpoint (ns1, wk1, 8080) on an empty store. -/
theorem lookup_returns_what_createServer_wrote_witness :
    (CreateServer exampleEnv mapClient emptyWorld freshTransport exampleEndpoint).1 = none ∧
    ∃ cm sec crt key,
      (CreateServer exampleEnv mapClient emptyWorld freshTransport exampleEndpoint).2.2.calls =
        [] ++ [.Create (.configMap cm), .GenerateSSLCert, .Create (.secret sec)] ∧
      cm.Data = [("stunnel.conf", filledConf 2000 8080)] ∧
      sec.Data = [("tls.crt", crt), ("tls.key", key)] ∧
      (getServerConfig exampleEnv mapClient
        (CreateServer exampleEnv mapClient emptyWorld freshTransport exampleEndpoint).2.2
        exampleEndpoint.NamespacedName).1 = (cm, none) ∧
      (getServerSecret exampleEnv mapClient
        (CreateServer exampleEnv mapClient emptyWorld freshTransport exampleEndpoint).2.2
        exampleEndpoint.NamespacedName).1 = (sec, none) :=
  ⟨by decide,
   lookup_returns_what_createServer_wrote exampleEnv emptyWorld freshTransport exampleEndpoint
     (by decide)⟩

/-- C6: on the create-only store, whenever the configuration step succeeds and
the secret step fails (the issuer fails, or the `Create` of the Secret fails),
`CreateServer` returns exactly that error; the store holds the ConfigMap it
created in front of the ConfigMaps it held before, `getServerConfig` returns it
with the rendered text, and the Secrets are as before; the container and volume
descriptors of the transport are as before the call. -/
theorem createServer_no_rollback {ρ : Type} (env : Env ρ) (w : World Store ρ)
    (s : StunnelTransport) (e : Endpoint) (err : Error)
    (hcfg : (createStunnelServerConfig env mapClient w e).1 = none)
    (hsec : (createStunnelServerSecret env mapClient
      (createStunnelServerConfig env mapClient w e).2
      { s with port := env.stunnelPort } e).1 = some err) :
    (CreateServer env mapClient w s e).1 = some err ∧
    ((env.GenerateSSLCert w.rng).1 = .failed err ∨
      ∃ ca crt key sec, (env.GenerateSSLCert w.rng).1 = .issued ca crt key ∧
        sec.Data = [("tls.crt", crt), ("tls.key", key)] ∧
        (CreateServer env mapClient w s e).2.2.calls.getLast? = some (.Create (.secret sec))) ∧
    (CreateServer env mapClient w s e).2.2.store.configMaps =
      stunnelConfigMap env e (filledConf env.stunnelPort e.Port) :: w.store.configMaps ∧
    (getServerConfig env mapClient (CreateServer env mapClient w s e).2.2
      e.NamespacedName).1 =
      (stunnelConfigMap env e (filledConf env.stunnelPort e.Port), none) ∧
    (CreateServer env mapClient w s e).2.2.store.secrets = w.store.secrets ∧
    (CreateServer env mapClient w s e).2.1.serverContainers = s.serverContainers ∧
    (CreateServer env mapClient w s e).2.1.serverVolumes = s.serverVolumes := by
  rw [createStunnelServerConfig_eq] at hcfg hsec
  have h1 : (mapClient.Create w.store
      (.configMap (stunnelConfigMap env e (filledConf env.stunnelPort e.Port)))).1 = none := hcfg
  have hkey : (stunnelConfigMap env e (filledConf env.stunnelPort e.Port)).ObjectMeta.hasKey
      e.NamespacedName.Namespace (env.stunnelConfigPrefix ++ e.NamespacedName.Name) = true := by
    simp [ObjectMeta.hasKey, stunnelConfigMap]
  cases hg : (env.GenerateSSLCert w.rng).1 with
  | failed err2 =>
    simp only [createStunnelServerSecret, World.Create, hg, Option.some.injEq] at hsec
    subst hsec
    rw [createServer_of_issuer_fails env mapClient w s e err2 h1 hg]
    refine ⟨rfl, Or.inl rfl, mapClient_create_configMap_ok _ _ h1, ?_,
      mapClient_create_configMap_secrets _ _, rfl, rfl⟩
    exact getConfigMap_head _ _ w.store.configMaps _ _
      (mapClient_create_configMap_ok _ _ h1) hkey
  | issued ca crt key =>
    simp only [createStunnelServerSecret, World.Create, hg] at hsec
    rw [createServer_of_issued env mapClient w s e ca crt key h1 hg]
    have hobj := mapClient_create_fails_objects _ _ err hsec
    refine ⟨hsec, Or.inr ⟨ca, crt, key,
      stunnelSecret env { s with port := env.stunnelPort, key := some key, crt := some crt } e,
      rfl, rfl, by simp⟩, ?_, ?_, ?_, by simp only [hsec], by simp only [hsec]⟩
    · rw [hobj.1, mapClient_create_configMap_ok _ _ h1]
    · refine getConfigMap_head _ _ w.store.configMaps _ _ ?_ hkey
      simp only []
      rw [hobj.1, mapClient_create_configMap_ok _ _ h1]
    · rw [hobj.2, mapClient_create_configMap_secrets]

/-- Witness of C6: the store becomes unreachable for the `Create` of the Secret. -/
theorem createServer_no_rollback_witness :
    (createStunnelServerConfig exampleEnv mapClient flakyWorld exampleEndpoint).1 = none ∧
    (CreateServer exampleEnv mapClient flakyWorld freshTransport exampleEndpoint).1 =
      some (.StoreUnavailable "connection refused") ∧
    (getServerConfig exampleEnv mapClient
      (CreateServer exampleEnv mapClient flakyWorld freshTransport exampleEndpoint).2.2
      exampleEndpoint.NamespacedName).1 =
      (stunnelConfigMap exampleEnv exampleEndpoint (filledConf 2000 8080), none) ∧
    (CreateServer exampleEnv mapClient flakyWorld freshTransport
      exampleEndpoint).2.1.serverContainers = [] :=
  ⟨by decide,
   (createServer_no_rollback exampleEnv flakyWorld freshTransport exampleEndpoint
      (.StoreUnavailable "connection refused") (by decide) (by decide)).1,
   (createServer_no_rollback exampleEnv flakyWorld freshTransport exampleEndpoint
      (.StoreUnavailable "connection refused") (by decide) (by decide)).2.2.2.1,
   (createServer_no_rollback exampleEnv flakyWorld freshTransport exampleEndpoint
      (.StoreUnavailable "connection refused") (by decide) (by decide)).2.2.2.2.2.1⟩

/-- C9: for every endpoint and every pair of ports, the config-file argument of
the container command is the MountPath of the config mount; the SubPath of that
mount is the single key under which the ConfigMap stores the rendered text; and
the only `key =` and `cert =` values in the rendered text are the certificate
mount's MountPath joined by `/` with the Path of the secret volume's items for
`tls.key` and `tls.crt`. -/
theorem rendered_paths_match_mounts {ρ : Type} (env : Env ρ) (e : Endpoint)
    (s s2 : StunnelTransport) (p t : Int) :
    ∃ ctr cfgMount certMount cfgVol secVol secSrc crtItem keyItem text,
      (createStunnelServerContainers env s e.NamespacedName).serverContainers = [ctr] ∧
      ctr.VolumeMounts = [cfgMount, certMount] ∧
      (createStunnelServerVolumes env s2 e.NamespacedName).serverVolumes = [cfgVol, secVol] ∧
      cfgVol.Name = cfgMount.Name ∧
      secVol.Name = certMount.Name ∧
      secVol.VolumeSource.Secret = some secSrc ∧
      secSrc.Items = [crtItem, keyItem] ∧
      crtItem.Key = "tls.crt" ∧
      keyItem.Key = "tls.key" ∧
      renderStunnelConf p t = .ok text ∧
      ctr.Command = ["/bin/stunnel", cfgMount.MountPath] ∧
      (stunnelConfigMap env e text).Data = [(cfgMount.SubPath, text)] ∧
      confOption "key" text = [certMount.MountPath ++ "/" ++ keyItem.Path] ∧
      confOption "cert" text = [certMount.MountPath ++ "/" ++ crtItem.Path] := by
  refine ⟨_, _, _, _, _, _, _, _, _, rfl, rfl, rfl, rfl, rfl, rfl, rfl, rfl, rfl,
    renderStunnelConf_eq p t, rfl, rfl, ?_, ?_⟩
  · rw [confOption_key_filledConf]
    show ["/etc/stunnel/certs/tls.key"] = ["/etc/stunnel/certs" ++ "/" ++ "tls.key"]
    decide
  · rw [confOption_cert_filledConf]
    show ["/etc/stunnel/certs/tls.crt"] = ["/etc/stunnel/certs" ++ "/" ++ "tls.crt"]
    decide

end Stunnel
